import Mathlib

/-!
Shallow embedding of the provider-account configuration manager of
`src/src/commands/providers.ts` (the `myoc` repository): the data model
(config document, provider sections, account entries), the patch engine
(`applyAccountName`, `applyProviderAccountConfig`, `setAccountEnabled`,
`deleteAccount`), the provider normalizer (`normalizeChatProvider`)
and the flag-driven add command's validation path (`providersAddCommand`).

JS objects holding account maps are modelled as association lists with
unique keys; a field set to `undefined` is modelled as `none` (the
serialized document drops such keys, and all reads go through optional
chaining, so `undefined` and absent are indistinguishable).
-/

namespace Providers

/-- The six fixed chat provider kinds, `CHAT_PROVIDERS` in `providers.ts`. -/
inductive ChatProvider
  | whatsapp
  | telegram
  | discord
  | slack
  | signal
  | imessage
deriving DecidableEq, Repr

/-- The string form of each provider kind, as listed in `CHAT_PROVIDERS`. -/
def chatProviderName : ChatProvider → String
  | .whatsapp => "whatsapp"
  | .telegram => "telegram"
  | .discord => "discord"
  | .slack => "slack"
  | .signal => "signal"
  | .imessage => "imessage"

/-- `CHAT_PROVIDERS.includes(s)` together with the cast to `ChatProvider`:
the partial inverse of `chatProviderName`. -/
def chatProviderOfString (s : String) : Option ChatProvider :=
  if s = "whatsapp" then some .whatsapp
  else if s = "telegram" then some .telegram
  else if s = "discord" then some .discord
  else if s = "slack" then some .slack
  else if s = "signal" then some .signal
  else if s = "imessage" then some .imessage
  else none

/-- ASCII whitespace, the class the inputs at hand can contain; used to
model the JS `String.prototype.trim`. -/
def isSpace (c : Char) : Bool := c = ' ' ∨ c = '\t' ∨ c = '\n' ∨ c = '\r'

/-- Model of the JS `raw.trim()`: drop whitespace from both ends. -/
def jsTrim (s : String) : String :=
  String.mk (((s.data.dropWhile isSpace).reverse.dropWhile isSpace).reverse)

/-- ASCII lowering of one character, as `toLowerCase` acts on the
provider names at hand. -/
def jsCharLower (c : Char) : Char :=
  if 'A' ≤ c ∧ c ≤ 'Z' then Char.ofNat (c.toNat + 32) else c

/-- Model of the JS `raw.toLowerCase()`. -/
def jsToLower (s : String) : String := String.mk (s.data.map jsCharLower)

/-- `normalizeChatProvider` from `providers.ts` lines 99-106: trim and
lowercase the raw input, treat empty as `null`, map the alias `imsg` to
`imessage`, and accept exactly the six fixed kinds.  A total function:
it never throws. -/
def normalizeChatProvider (raw : Option String) : Option ChatProvider :=
  let trimmed := jsToLower (jsTrim (raw.getD ""))
  if trimmed = "" then none
  else
    let normalized := if trimmed = "imsg" then "imessage" else trimmed
    chatProviderOfString normalized

/-- Modelled from the spec: `DEFAULT_ACCOUNT_ID` is imported from
`src/routing/session-key.ts`, which is not among the provided sources.
Per the glossary it is "the reserved identifier representing the
unnamed/primary account"; its concrete spelling is irrelevant to every
claim, which only compares account ids with it. -/
def DEFAULT_ACCOUNT_ID : String := "default"

/-- Modelled from the spec: `normalizeAccountId` is imported from
`src/routing/session-key.ts`, which is not among the provided sources.
Per spec 4.1 it "trims, and maps empty/absent to the Default Account
sentinel; non-empty values pass through unchanged". -/
def normalizeAccountId (raw : Option String) : String :=
  let t := jsTrim (raw.getD "")
  if t = "" then DEFAULT_ACCOUNT_ID else t

/-- JS truthiness of an optional string option: `undefined` and the empty
string are falsy (the source guards every field write with plain
truthiness, e.g. `params.token ? { token: params.token } : {}`). -/
def jsTruthyStr : Option String → Bool
  | some s => s ≠ ""
  | none => false

/-- Integer model of the JS `Number(string)` conversion applied to
`httpPort`.  No claim depends on the numeric value produced, only on the
conversion being a fixed deterministic function. -/
def jsNumber (s : String) : Int :=
  (s.toInt?).getD 0

/-- An account entry (one value of an `accounts` map), with every field
optional, as in the untyped `Record<string, unknown>` entries the source
manipulates.  The per-provider branches only ever read and write their
own provider's fields. -/
structure AccountEntry where
  enabled : Option Bool := none
  name : Option String := none
  authDir : Option String := none
  botToken : Option String := none
  tokenFile : Option String := none
  token : Option String := none
  appToken : Option String := none
  account : Option String := none
  cliPath : Option String := none
  dbPath : Option String := none
  service : Option String := none
  region : Option String := none
  httpUrl : Option String := none
  httpHost : Option String := none
  httpPort : Option Int := none
deriving DecidableEq, Repr

/-- A provider section of the config document: the section-level singleton
fields (used by the default account of the five non-whatsapp providers)
plus the optional `accounts` map. -/
structure ProviderSection where
  enabled : Option Bool := none
  name : Option String := none
  authDir : Option String := none
  botToken : Option String := none
  tokenFile : Option String := none
  token : Option String := none
  appToken : Option String := none
  account : Option String := none
  cliPath : Option String := none
  dbPath : Option String := none
  service : Option String := none
  region : Option String := none
  httpUrl : Option String := none
  httpHost : Option String := none
  httpPort : Option Int := none
  accounts : Option (List (String × AccountEntry)) := none
deriving DecidableEq, Repr

/-- The config document (`ClawdbotConfig`), restricted to the six provider
sections this command suite touches. -/
structure ClawdbotConfig where
  whatsapp : Option ProviderSection := none
  telegram : Option ProviderSection := none
  discord : Option ProviderSection := none
  slack : Option ProviderSection := none
  signal : Option ProviderSection := none
  imessage : Option ProviderSection := none
deriving DecidableEq, Repr

/-- `cfg[key]` for a provider key (the source indexes the document as
`(cfg as Record<string, unknown>)[key]`). -/
def getSection (cfg : ClawdbotConfig) : ChatProvider → Option ProviderSection
  | .whatsapp => cfg.whatsapp
  | .telegram => cfg.telegram
  | .discord => cfg.discord
  | .slack => cfg.slack
  | .signal => cfg.signal
  | .imessage => cfg.imessage

/-- `{ ...cfg, [key]: s }` for a provider key. -/
def setSection (cfg : ClawdbotConfig) : ChatProvider → Option ProviderSection → ClawdbotConfig
  | .whatsapp, s => { cfg with whatsapp := s }
  | .telegram, s => { cfg with telegram := s }
  | .discord, s => { cfg with discord := s }
  | .slack, s => { cfg with slack := s }
  | .signal, s => { cfg with signal := s }
  | .imessage, s => { cfg with imessage := s }

/-- `section?.accounts` through an optional section. -/
def accountsOf (s : Option ProviderSection) : Option (List (String × AccountEntry)) :=
  s.bind fun x => x.accounts

/-- `{ ...m, [k]: v }` on a JS object modelled as an association list:
replace the value at `k` in place, or append the new key at the end. -/
def setAcc {α : Type} (k : String) (v : α) : List (String × α) → List (String × α)
  | [] => [(k, v)]
  | (k', v') :: rest => if k' = k then (k, v) :: rest else (k', v') :: setAcc k v rest

/-- `m[k]` on a JS object modelled as an association list. -/
def lookupAcc {α : Type} (k : String) : List (String × α) → Option α
  | [] => none
  | (k', v') :: rest => if k' = k then some v' else lookupAcc k rest

/-- `delete m[k]` on a JS object modelled as an association list. -/
def delAcc {α : Type} (k : String) (l : List (String × α)) : List (String × α) :=
  l.filter fun kv => kv.1 != k

/-- The truthiness-guarded conditional field write
`...(new ? { field: new } : {})` over an existing value `old`. -/
def owr (new old : Option String) : Option String :=
  if jsTruthyStr new then new else old

/-- The conditional write `...(new ? { httpPort: Number(new) } : {})`. -/
def owrNum (new : Option String) (old : Option Int) : Option Int :=
  if jsTruthyStr new then some (jsNumber (new.getD "")) else old

/-- `params.name?.trim() || undefined`. -/
def normName : Option String → Option String
  | none => none
  | some s => if jsTrim s = "" then none else some (jsTrim s)

/-- `applyAccountName` from `providers.ts` lines 146-206: a no-op for a
blank name; for whatsapp writes `accounts[accountId].name`; for the other
providers writes the section-level singleton `name` for the default
account and `accounts[accountId].name` otherwise. -/
def applyAccountName (cfg : ClawdbotConfig) (provider : ChatProvider)
    (accountId0 : String) (name : Option String) : ClawdbotConfig :=
  match normName name with
  | none => cfg
  | some trimmed =>
    let accountId := normalizeAccountId (some accountId0)
    if provider = .whatsapp then
      let baseAccounts := (accountsOf cfg.whatsapp).getD []
      let prev := (lookupAcc accountId baseAccounts).getD {}
      { cfg with whatsapp := some { cfg.whatsapp.getD {} with
          accounts := some (setAcc accountId { prev with name := some trimmed } baseAccounts) } }
    else if accountId = DEFAULT_ACCOUNT_ID then
      let safeBase := (getSection cfg provider).getD {}
      setSection cfg provider (some { safeBase with name := some trimmed })
    else
      let base := getSection cfg provider
      let baseAccounts := (accountsOf base).getD []
      let existingAccount := (lookupAcc accountId baseAccounts).getD {}
      setSection cfg provider (some { base.getD {} with
        accounts := some (setAcc accountId { existingAccount with name := some trimmed } baseAccounts) })

/-- The optional per-provider fields of `applyProviderAccountConfig`
(and of the flag-driven add command). -/
structure AccountConfigParams where
  name : Option String := none
  token : Option String := none
  tokenFile : Option String := none
  botToken : Option String := none
  appToken : Option String := none
  signalNumber : Option String := none
  cliPath : Option String := none
  dbPath : Option String := none
  service : Option String := none
  region : Option String := none
  authDir : Option String := none
  httpUrl : Option String := none
  httpHost : Option String := none
  httpPort : Option String := none
  useEnv : Bool := false
deriving DecidableEq, Repr

/-- `applyProviderAccountConfig` from `providers.ts` lines 208-437: apply
the display name first, then merge the provider-specific non-empty fields
into the default account's section-level singletons or the named
account's `accounts` entry, always setting `enabled := true`. -/
def applyProviderAccountConfig (cfg : ClawdbotConfig) (provider : ChatProvider)
    (accountId0 : String) (p : AccountConfigParams) : ClawdbotConfig :=
  let accountId := normalizeAccountId (some accountId0)
  let name := normName p.name
  let next := applyAccountName cfg provider accountId name
  match provider with
  | .whatsapp =>
    let prev := (lookupAcc accountId ((accountsOf next.whatsapp).getD [])).getD {}
    let entry := { prev with
      authDir := owr p.authDir prev.authDir
      enabled := some true
      name := owr name prev.name }
    { next with whatsapp := some { next.whatsapp.getD {} with
        accounts := some (setAcc accountId entry ((accountsOf next.whatsapp).getD [])) } }
  | .telegram =>
    if accountId = DEFAULT_ACCOUNT_ID then
      let base := next.telegram.getD {}
      { next with telegram := some { base with
          enabled := some true
          tokenFile := if p.useEnv then base.tokenFile else owr p.tokenFile base.tokenFile
          botToken := if p.useEnv then base.botToken else
            if jsTruthyStr p.tokenFile then base.botToken else owr p.token base.botToken
          name := owr name base.name } }
    else
      let base := next.telegram.getD {}
      let baseAccounts := (accountsOf next.telegram).getD []
      let prev := (lookupAcc accountId baseAccounts).getD {}
      let entry := { prev with
        enabled := some true
        tokenFile := owr p.tokenFile prev.tokenFile
        botToken := if jsTruthyStr p.tokenFile then prev.botToken else owr p.token prev.botToken
        name := owr name prev.name }
      { next with telegram := some { base with
          enabled := some true
          accounts := some (setAcc accountId entry baseAccounts) } }
  | .discord =>
    if accountId = DEFAULT_ACCOUNT_ID then
      let base := next.discord.getD {}
      { next with discord := some { base with
          enabled := some true
          token := if p.useEnv then base.token else owr p.token base.token
          name := owr name base.name } }
    else
      let base := next.discord.getD {}
      let baseAccounts := (accountsOf next.discord).getD []
      let prev := (lookupAcc accountId baseAccounts).getD {}
      let entry := { prev with
        enabled := some true
        token := owr p.token prev.token
        name := owr name prev.name }
      { next with discord := some { base with
          enabled := some true
          accounts := some (setAcc accountId entry baseAccounts) } }
  | .slack =>
    if accountId = DEFAULT_ACCOUNT_ID then
      let base := next.slack.getD {}
      { next with slack := some { base with
          enabled := some true
          botToken := if p.useEnv then base.botToken else owr p.botToken base.botToken
          appToken := if p.useEnv then base.appToken else owr p.appToken base.appToken
          name := owr name base.name } }
    else
      let base := next.slack.getD {}
      let baseAccounts := (accountsOf next.slack).getD []
      let prev := (lookupAcc accountId baseAccounts).getD {}
      let entry := { prev with
        enabled := some true
        botToken := owr p.botToken prev.botToken
        appToken := owr p.appToken prev.appToken
        name := owr name prev.name }
      { next with slack := some { base with
          enabled := some true
          accounts := some (setAcc accountId entry baseAccounts) } }
  | .signal =>
    if accountId = DEFAULT_ACCOUNT_ID then
      let base := next.signal.getD {}
      { next with signal := some { base with
          enabled := some true
          account := owr p.signalNumber base.account
          cliPath := owr p.cliPath base.cliPath
          httpUrl := owr p.httpUrl base.httpUrl
          httpHost := owr p.httpHost base.httpHost
          httpPort := owrNum p.httpPort base.httpPort
          name := owr name base.name } }
    else
      let base := next.signal.getD {}
      let baseAccounts := (accountsOf next.signal).getD []
      let prev := (lookupAcc accountId baseAccounts).getD {}
      let entry := { prev with
        enabled := some true
        account := owr p.signalNumber prev.account
        cliPath := owr p.cliPath prev.cliPath
        httpUrl := owr p.httpUrl prev.httpUrl
        httpHost := owr p.httpHost prev.httpHost
        httpPort := owrNum p.httpPort prev.httpPort
        name := owr name prev.name }
      { next with signal := some { base with
          enabled := some true
          accounts := some (setAcc accountId entry baseAccounts) } }
  | .imessage =>
    if accountId = DEFAULT_ACCOUNT_ID then
      let base := next.imessage.getD {}
      { next with imessage := some { base with
          enabled := some true
          cliPath := owr p.cliPath base.cliPath
          dbPath := owr p.dbPath base.dbPath
          service := owr p.service base.service
          region := owr p.region base.region
          name := owr name base.name } }
    else
      let base := next.imessage.getD {}
      let baseAccounts := (accountsOf next.imessage).getD []
      let prev := (lookupAcc accountId baseAccounts).getD {}
      let entry := { prev with
        enabled := some true
        cliPath := owr p.cliPath prev.cliPath
        dbPath := owr p.dbPath prev.dbPath
        service := owr p.service prev.service
        region := owr p.region prev.region
        name := owr name prev.name }
      { next with imessage := some { base with
          enabled := some true
          accounts := some (setAcc accountId entry baseAccounts) } }

/-- `setAccountEnabled` from `providers.ts` lines 975-1026 (the closure
inside `providersRemoveCommand`, with the document and the resolved
`accountKey` made explicit parameters): whatsapp always writes
`accounts[accountKey].enabled`; the other providers write the
section-level `enabled` flag when `accountKey` is the default sentinel
and the section has no `accounts` map, and `accounts[accountKey].enabled`
otherwise. -/
def setAccountEnabled (cfg : ClawdbotConfig) (key : ChatProvider)
    (accountKey : String) (enabled : Bool) : ClawdbotConfig :=
  if key = .whatsapp then
    let baseAccounts := (accountsOf cfg.whatsapp).getD []
    let prev := (lookupAcc accountKey baseAccounts).getD {}
    { cfg with whatsapp := some { cfg.whatsapp.getD {} with
        accounts := some (setAcc accountKey { prev with enabled := some enabled } baseAccounts) } }
  else
    let base := getSection cfg key
    let baseAccounts := (accountsOf base).getD []
    let existingAccount := (lookupAcc accountKey baseAccounts).getD {}
    if accountKey = DEFAULT_ACCOUNT_ID ∧ accountsOf base = none then
      setSection cfg key (some { base.getD {} with enabled := some enabled })
    else
      setSection cfg key (some { base.getD {} with
        accounts := some (setAcc accountKey { existingAccount with enabled := some enabled } baseAccounts) })

/-- The section-level singleton fields `deleteAccount` sets to `undefined`
when the default account is deleted while named accounts remain
(`providers.ts` lines 1067-1090). -/
def clearSingletons (key : ChatProvider) (s : ProviderSection) : ProviderSection :=
  match key with
  | .telegram => { s with botToken := none, tokenFile := none, name := none }
  | .discord => { s with token := none, name := none }
  | .slack => { s with botToken := none, appToken := none, name := none }
  | .signal => { s with account := none, httpUrl := none, httpHost := none,
                        httpPort := none, cliPath := none, name := none }
  | .imessage => { s with cliPath := none, dbPath := none, service := none,
                          region := none, name := none }
  | .whatsapp => s

/-- `deleteAccount` from `providers.ts` lines 1028-1099 (the closure inside
`providersRemoveCommand`): whatsapp removes `accounts[accountKey]` and
drops an emptied map; the other providers remove a named account from
`accounts` the same way, remove the default entry and clear the
section-level singletons when a non-empty `accounts` map exists, and
otherwise delete the whole provider section. -/
def deleteAccount (cfg : ClawdbotConfig) (key : ChatProvider)
    (accountKey : String) : ClawdbotConfig :=
  if key = .whatsapp then
    let accounts := delAcc accountKey ((accountsOf cfg.whatsapp).getD [])
    { cfg with whatsapp := some { cfg.whatsapp.getD {} with
        accounts := if accounts = [] then none else some accounts } }
  else
    let base := getSection cfg key
    if accountKey ≠ DEFAULT_ACCOUNT_ID then
      let accounts := delAcc accountKey ((accountsOf base).getD [])
      setSection cfg key (some { base.getD {} with
        accounts := if accounts = [] then none else some accounts })
    else
      -- `base?.accounts && Object.keys(base.accounts).length > 0`: the map is
      -- present and non-empty exactly when its defaulted form is non-empty.
      let baseAccounts := (accountsOf base).getD []
      if baseAccounts = [] then setSection cfg key none
      else
        let accounts := delAcc accountKey baseAccounts
        setSection cfg key (some (clearSingletons key { base.getD {} with
          accounts := if accounts = [] then none else some accounts }))

/-- Outcome of a flag-driven command: a reported error with a non-zero
exit (before any mutation), or an atomic write of the new document with
the confirmation line. -/
inductive AddOutcome
  | error (msg : String)
  | written (doc : ClawdbotConfig) (log : String)
deriving DecidableEq, Repr

/-- `ProvidersAddOptions` from `providers.ts` lines 73-91. -/
structure ProvidersAddOptions where
  provider : Option String := none
  account : Option String := none
  name : Option String := none
  token : Option String := none
  tokenFile : Option String := none
  botToken : Option String := none
  appToken : Option String := none
  signalNumber : Option String := none
  cliPath : Option String := none
  dbPath : Option String := none
  service : Option String := none
  region : Option String := none
  authDir : Option String := none
  httpUrl : Option String := none
  httpHost : Option String := none
  httpPort : Option String := none
  useEnv : Option Bool := none
deriving DecidableEq, Repr

/-- The flag-driven path of `providersAddCommand` (`providers.ts` lines
800-895), on a validated config snapshot: provider normalization, the
per-provider required-field checks, and only then the patch plus the
single write. -/
def providersAddCommand (cfg : ClawdbotConfig) (opts : ProvidersAddOptions) : AddOutcome :=
  match normalizeChatProvider opts.provider with
  | none => .error ("Unknown provider: " ++ opts.provider.getD "")
  | some provider =>
    let accountId := normalizeAccountId opts.account
    let useEnv := opts.useEnv = some true
    if provider = .telegram ∧ useEnv ∧ accountId ≠ DEFAULT_ACCOUNT_ID then
      .error "TELEGRAM_BOT_TOKEN can only be used for the default account."
    else if provider = .telegram ∧ ¬useEnv ∧ jsTruthyStr opts.token = false ∧
        jsTruthyStr opts.tokenFile = false then
      .error "Telegram requires --token or --token-file (or --use-env)."
    else if provider = .discord ∧ useEnv ∧ accountId ≠ DEFAULT_ACCOUNT_ID then
      .error "DISCORD_BOT_TOKEN can only be used for the default account."
    else if provider = .discord ∧ ¬useEnv ∧ jsTruthyStr opts.token = false then
      .error "Discord requires --token (or --use-env)."
    else if provider = .slack ∧ useEnv ∧ accountId ≠ DEFAULT_ACCOUNT_ID then
      .error "Slack env tokens can only be used for the default account."
    else if provider = .slack ∧ ¬useEnv ∧
        (jsTruthyStr opts.botToken = false ∨ jsTruthyStr opts.appToken = false) then
      .error "Slack requires --bot-token and --app-token (or --use-env)."
    else if provider = .signal ∧ jsTruthyStr opts.signalNumber = false ∧
        jsTruthyStr opts.httpUrl = false ∧ jsTruthyStr opts.httpHost = false ∧
        jsTruthyStr opts.httpPort = false ∧ jsTruthyStr opts.cliPath = false then
      .error "Signal requires --signal-number or --http-url/--http-host/--http-port/--cli-path."
    else
      let nextConfig := applyProviderAccountConfig cfg provider accountId
        { name := opts.name
          token := opts.token
          tokenFile := opts.tokenFile
          botToken := opts.botToken
          appToken := opts.appToken
          signalNumber := opts.signalNumber
          cliPath := opts.cliPath
          dbPath := opts.dbPath
          service := opts.service
          region := opts.region
          authDir := opts.authDir
          httpUrl := opts.httpUrl
          httpHost := opts.httpHost
          httpPort := opts.httpPort
          useEnv := opts.useEnv = some true }
      .written nextConfig
        ("Added " ++ chatProviderName provider ++ " account \"" ++ accountId ++ "\".")

/-- The account entry at key `k` of provider `key`'s accounts map, the
empty record when the section, map or entry is absent (the way the
source reads entries through optional chaining with spread defaults). -/
def entryAt (cfg : ClawdbotConfig) (key : ChatProvider) (k : String) : AccountEntry :=
  (lookupAcc k ((accountsOf (getSection cfg key)).getD [])).getD {}

@[simp]
theorem lookupAcc_setAcc_self {α : Type} (k : String) (v : α) (l : List (String × α)) :
    lookupAcc k (setAcc k v l) = some v := by
  induction l with
  | nil => simp [setAcc, lookupAcc]
  | cons hd tl ih =>
    obtain ⟨k', v'⟩ := hd
    by_cases h : k' = k <;> simp [setAcc, lookupAcc, h, ih]

theorem lookupAcc_setAcc_ne {α : Type} {k k' : String} (v : α) (l : List (String × α))
    (h : k' ≠ k) : lookupAcc k' (setAcc k v l) = lookupAcc k' l := by
  induction l with
  | nil => simp [setAcc, lookupAcc, Ne.symm h]
  | cons hd tl ih =>
    obtain ⟨k'', v''⟩ := hd
    by_cases h2 : k'' = k
    · subst h2
      simp [setAcc, lookupAcc, Ne.symm h]
    · simp [setAcc, lookupAcc, h2, ih]

@[simp]
theorem setAcc_override {α : Type} (k : String) (v v' : α) (l : List (String × α)) :
    setAcc k v' (setAcc k v l) = setAcc k v' l := by
  induction l with
  | nil => simp [setAcc]
  | cons hd tl ih =>
    obtain ⟨k'', v''⟩ := hd
    by_cases h : k'' = k <;> simp [setAcc, h, ih]

theorem setAcc_lookup_self {α : Type} {k : String} {v : α} {l : List (String × α)}
    (h : lookupAcc k l = some v) : setAcc k v l = l := by
  induction l with
  | nil => simp [lookupAcc] at h
  | cons hd tl ih =>
    obtain ⟨k'', v''⟩ := hd
    by_cases h2 : k'' = k
    · subst h2
      simp [lookupAcc] at h
      simp [setAcc, h]
    · simp [lookupAcc, h2] at h
      simp [setAcc, h2, ih h]

@[simp]
theorem lookupAcc_delAcc_self {α : Type} (k : String) (l : List (String × α)) :
    lookupAcc k (delAcc k l) = none := by
  induction l with
  | nil => simp [delAcc, lookupAcc]
  | cons hd tl ih =>
    obtain ⟨k'', v''⟩ := hd
    by_cases h : k'' = k
    · subst h
      simpa [delAcc, List.filter_cons] using ih
    · simpa [delAcc, List.filter_cons, h, lookupAcc] using ih

theorem lookupAcc_delAcc_ne {α : Type} {k k' : String} (l : List (String × α))
    (h : k' ≠ k) : lookupAcc k' (delAcc k l) = lookupAcc k' l := by
  induction l with
  | nil => simp [delAcc, lookupAcc]
  | cons hd tl ih =>
    obtain ⟨k'', v''⟩ := hd
    by_cases h2 : k'' = k
    · subst h2
      simpa [delAcc, List.filter_cons, lookupAcc, Ne.symm h] using ih
    · by_cases h3 : k'' = k'
      · subst h3
        simp [delAcc, List.filter_cons, h2, h, lookupAcc]
      · simp only [delAcc, List.filter_cons] at ih ⊢
        simp [h2, h3, lookupAcc, ih]

@[simp]
theorem owr_absorb (n x : Option String) : owr n (owr n x) = owr n x := by
  by_cases h : jsTruthyStr n = true <;> simp [owr, h]

@[simp]
theorem owr_none (x : Option String) : owr none x = x := rfl

@[simp]
theorem owrNum_absorb (n : Option String) (x : Option Int) :
    owrNum n (owrNum n x) = owrNum n x := by
  by_cases h : jsTruthyStr n = true <;> simp [owrNum, h]

@[simp]
theorem owrNum_none (x : Option Int) : owrNum none x = x := rfl

theorem owr_of_truthy {n : Option String} (h : jsTruthyStr n = true) (x : Option String) :
    owr n x = n := by
  simp [owr, h]

theorem normName_truthy {x : Option String} {u : String} (h : normName x = some u) :
    jsTruthyStr (some u) = true := by
  match x with
  | none => simp [normName] at h
  | some s =>
    simp only [normName] at h
    by_cases h2 : jsTrim s = ""
    · simp [h2] at h
    · simp [h2] at h
      subst h
      simp [jsTruthyStr, h2]

theorem getSection_setSection_self (cfg : ClawdbotConfig) (key : ChatProvider)
    (s : Option ProviderSection) : getSection (setSection cfg key s) key = s := by
  cases key <;> rfl

theorem getSection_setSection_ne (cfg : ClawdbotConfig) {key key' : ChatProvider}
    (s : Option ProviderSection) (h : key' ≠ key) :
    getSection (setSection cfg key s) key' = getSection cfg key' := by
  cases key <;> cases key' <;> first | rfl | exact absurd rfl h

theorem accountsOf_none_getD {x : Option ProviderSection} (h : accountsOf x = none) :
    (x.getD {}).accounts = none := by
  cases x <;> simpa [accountsOf] using h

theorem clearSingletons_accounts (key : ChatProvider) (s : ProviderSection) :
    (clearSingletons key s).accounts = s.accounts := by
  cases key <;> rfl

theorem clearSingletons_enabled (key : ChatProvider) (s : ProviderSection) :
    (clearSingletons key s).enabled = s.enabled := by
  cases key <;> rfl

/-- The invariant "an `accounts` key is absent or maps to a non-empty
map" for one (possibly absent) provider section. -/
def noEmptyAccounts : Option ProviderSection → Prop
  | none => True
  | some s => s.accounts ≠ some []

/-- C3: for every provider (whatsapp and the other five alike), every
document and every account key, the provider section produced by a
delete-account operation either is gone or has an `accounts` key that is
absent or non-empty; an empty `accounts` map is never left behind. -/
theorem deleteAccount_no_empty_accounts (cfg : ClawdbotConfig) (key : ChatProvider)
    (accountKey : String) :
    noEmptyAccounts (getSection (deleteAccount cfg key accountKey) key) := by
  unfold deleteAccount
  by_cases hw : key = ChatProvider.whatsapp
  · subst hw
    by_cases hd : delAcc accountKey ((accountsOf cfg.whatsapp).getD []) = [] <;>
      simp [noEmptyAccounts, hd, getSection]
  · rw [if_neg hw]
    by_cases ha : accountKey ≠ DEFAULT_ACCOUNT_ID
    · rw [if_pos ha, getSection_setSection_self]
      by_cases hd : delAcc accountKey ((accountsOf (getSection cfg key)).getD []) = [] <;>
        simp [noEmptyAccounts, hd]
    · rw [if_neg ha]
      by_cases hl : (accountsOf (getSection cfg key)).getD [] = []
      · simp [hl, getSection_setSection_self, noEmptyAccounts]
      · rw [if_neg hl, getSection_setSection_self]
        by_cases hd : delAcc accountKey ((accountsOf (getSection cfg key)).getD []) = [] <;>
          simp [noEmptyAccounts, clearSingletons_accounts, hd]

theorem chatProviderOfString_eq_some (s : String) (pk : ChatProvider) :
    chatProviderOfString s = some pk ↔ s = chatProviderName pk := by
  unfold chatProviderOfString
  split_ifs with h1 h2 h3 h4 h5 h6 <;> cases pk <;>
    simp_all [chatProviderName]

/-- C9: the provider normalizer trims and lowercases its input, maps the
alias `imsg` to `imessage`, and recognizes exactly the six fixed provider
kinds: `normalizeChatProvider raw = some pk` holds precisely when the
trimmed, lowercased input is non-empty and (after the alias rewrite)
spells `pk`'s name; all other inputs, the empty one included, yield
`none`.  The function is a total Lean function, so it never throws. -/
theorem normalizeChatProvider_spec (raw : Option String) (pk : ChatProvider) :
    normalizeChatProvider raw = some pk ↔
      (jsToLower (jsTrim (raw.getD "")) ≠ "" ∧
        chatProviderName pk =
          (if jsToLower (jsTrim (raw.getD "")) = "imsg" then "imessage"
           else jsToLower (jsTrim (raw.getD "")))) := by
  unfold normalizeChatProvider
  by_cases h0 : jsToLower (jsTrim (raw.getD "")) = ""
  · simp [h0]
  · by_cases h1 : jsToLower (jsTrim (raw.getD "")) = "imsg" <;>
      simp [h0, h1] <;>
      exact (chatProviderOfString_eq_some _ _).trans eq_comm

/-- The concrete document of the C1 counterexample: a telegram section
holding a bot token and an explicit `enabled: false`, with no accounts
map. -/
def c1Config : ClawdbotConfig :=
  { telegram := some { enabled := some false, botToken := some "abc" } }

/-- C1 counterexample: deleting the default telegram account from
`c1Config` — no accounts map present — removes the whole telegram section
instead of clearing the credential fields and keeping the section, even
though provider-specific state outside the credential/name field list
(the explicit `enabled: false` flag) would survive the clearing the claim
describes. -/
theorem deleteAccount_removes_section_despite_state :
    c1Config.telegram =
      some { enabled := some false, botToken := some "abc" } ∧
    (deleteAccount c1Config ChatProvider.telegram DEFAULT_ACCOUNT_ID).telegram = none := by
  constructor
  · rfl
  · decide

/-- C1 as amended: for every non-whatsapp provider, deleting the
default-sentinel account when the provider section has no accounts map
(or an empty one) removes the entire provider section from the document
unconditionally; no clearing of the section's singleton fields happens in
this case (that clearing belongs to the branch where the accounts map is
non-empty). -/
theorem deleteAccount_default_no_map_removes_section (cfg : ClawdbotConfig)
    (key : ChatProvider) (hkey : key ≠ ChatProvider.whatsapp)
    (hacc : accountsOf (getSection cfg key) = none ∨
      accountsOf (getSection cfg key) = some []) :
    getSection (deleteAccount cfg key DEFAULT_ACCOUNT_ID) key = none := by
  unfold deleteAccount
  rw [if_neg hkey, if_neg (by simp)]
  rcases hacc with h | h <;> rw [h] <;> simp [getSection_setSection_self]

/-- C1 amended-claim witness: the amended statement at the concrete
counterexample document. -/
theorem deleteAccount_default_no_map_removes_section_witness :
    getSection (deleteAccount c1Config ChatProvider.telegram DEFAULT_ACCOUNT_ID)
      ChatProvider.telegram = none :=
  deleteAccount_default_no_map_removes_section c1Config ChatProvider.telegram
    (by decide) (Or.inl (by decide))

/-- C2: for every non-whatsapp provider whose section has a non-empty
accounts map, deleting the default-sentinel account removes only the
default entry of that map: every other named entry is looked up
unchanged, the default entry is gone, the section's `enabled` flag is
preserved, and every other provider's section is untouched. -/
theorem deleteAccount_default_nonempty_map (cfg : ClawdbotConfig) (key : ChatProvider)
    (l : List (String × AccountEntry)) (hkey : key ≠ ChatProvider.whatsapp)
    (hacc : accountsOf (getSection cfg key) = some l) (hl : l ≠ []) :
    (∀ k, k ≠ DEFAULT_ACCOUNT_ID →
      lookupAcc k ((accountsOf (getSection
        (deleteAccount cfg key DEFAULT_ACCOUNT_ID) key)).getD []) = lookupAcc k l) ∧
    lookupAcc DEFAULT_ACCOUNT_ID ((accountsOf (getSection
      (deleteAccount cfg key DEFAULT_ACCOUNT_ID) key)).getD []) = none ∧
    (getSection (deleteAccount cfg key DEFAULT_ACCOUNT_ID) key).bind
      ProviderSection.enabled = (getSection cfg key).bind ProviderSection.enabled ∧
    ∀ key2, key2 ≠ key →
      getSection (deleteAccount cfg key DEFAULT_ACCOUNT_ID) key2 = getSection cfg key2 := by
  have hred : deleteAccount cfg key DEFAULT_ACCOUNT_ID =
      setSection cfg key (some (clearSingletons key
        { (getSection cfg key).getD {} with
          accounts := if delAcc DEFAULT_ACCOUNT_ID l = [] then none
            else some (delAcc DEFAULT_ACCOUNT_ID l) })) := by
    unfold deleteAccount
    rw [if_neg hkey, if_neg (by simp), hacc]
    simp [hl]
  have hAgetD : (if delAcc DEFAULT_ACCOUNT_ID l = [] then none
      else some (delAcc DEFAULT_ACCOUNT_ID l)).getD ([] : List (String × AccountEntry)) =
      delAcc DEFAULT_ACCOUNT_ID l := by
    by_cases hd : delAcc DEFAULT_ACCOUNT_ID l = [] <;> simp [hd]
  obtain ⟨s, hbase⟩ : ∃ s, getSection cfg key = some s := by
    cases hb : getSection cfg key
    · rw [hb] at hacc
      simp [accountsOf] at hacc
    · exact ⟨_, rfl⟩
  refine ⟨?_, ?_, ?_, ?_⟩
  · intro k hk
    rw [hred, getSection_setSection_self]
    simp [accountsOf, clearSingletons_accounts, hAgetD, lookupAcc_delAcc_ne l hk]
  · rw [hred, getSection_setSection_self]
    simp [accountsOf, clearSingletons_accounts, hAgetD]
  · rw [hred, getSection_setSection_self, hbase]
    simp [clearSingletons_enabled]
  · intro key2 hk2
    rw [hred, getSection_setSection_ne _ _ hk2]

/-- The concrete document of the C2 witness: a telegram section with a
section-level bot token plus default and named accounts. -/
def c2Config : ClawdbotConfig :=
  { telegram := some
      { botToken := some "abc"
        accounts := some [(DEFAULT_ACCOUNT_ID, { botToken := some "x" }),
          ("work", { botToken := some "y" })] } }

/-- C2 witness: the statement at a concrete telegram section with a
default and a named account. -/
theorem deleteAccount_default_nonempty_map_witness :
    lookupAcc "work" ((accountsOf (getSection
      (deleteAccount c2Config ChatProvider.telegram DEFAULT_ACCOUNT_ID)
      ChatProvider.telegram)).getD []) =
      lookupAcc "work" [(DEFAULT_ACCOUNT_ID, { botToken := some "x" }),
        ("work", { botToken := some "y" })] :=
  (deleteAccount_default_nonempty_map c2Config ChatProvider.telegram _
    (by decide) (by decide) (by decide)).1 "work" (by decide)

/-- C6: set-account-enabled semantics.  For whatsapp the flag is always
written into `accounts[accountKey].enabled` (other entry fields kept).
For the other providers: when `accountKey` is the default sentinel and
the section has no accounts map, the section-level `enabled` flag is
written and no accounts entry is created; otherwise — in particular as
soon as any accounts map exists, the default account included — the flag
goes into `accounts[accountKey].enabled` preserving the entry's other
fields. -/
theorem setAccountEnabled_spec (cfg : ClawdbotConfig) (key : ChatProvider)
    (accountKey : String) (e : Bool) :
    (key = ChatProvider.whatsapp →
      lookupAcc accountKey ((accountsOf (getSection
        (setAccountEnabled cfg key accountKey e) key)).getD []) =
        some { entryAt cfg key accountKey with enabled := some e }) ∧
    (key ≠ ChatProvider.whatsapp → accountKey = DEFAULT_ACCOUNT_ID →
      accountsOf (getSection cfg key) = none →
      getSection (setAccountEnabled cfg key accountKey e) key =
        some { (getSection cfg key).getD {} with enabled := some e } ∧
      accountsOf (getSection (setAccountEnabled cfg key accountKey e) key) = none) ∧
    (key ≠ ChatProvider.whatsapp →
      (accountKey ≠ DEFAULT_ACCOUNT_ID ∨ accountsOf (getSection cfg key) ≠ none) →
      lookupAcc accountKey ((accountsOf (getSection
        (setAccountEnabled cfg key accountKey e) key)).getD []) =
        some { entryAt cfg key accountKey with enabled := some e }) := by
  refine ⟨?_, ?_, ?_⟩
  · intro hw
    subst hw
    simp [setAccountEnabled, getSection, accountsOf, entryAt]
  · intro hk hd hacc
    unfold setAccountEnabled
    rw [if_neg hk, if_pos ⟨hd, hacc⟩, getSection_setSection_self]
    exact ⟨rfl, by simp [accountsOf, accountsOf_none_getD hacc]⟩
  · intro hk hor
    unfold setAccountEnabled
    rw [if_neg hk, if_neg (by
      rintro ⟨h1, h2⟩
      rcases hor with h | h
      · exact h h1
      · exact h h2), getSection_setSection_self]
    simp [accountsOf, entryAt]

/-- C6 witness: enabling the default telegram account on a document with
no telegram accounts map writes the section-level flag and creates no
accounts entry. -/
theorem setAccountEnabled_spec_witness :
    getSection (setAccountEnabled c1Config ChatProvider.telegram DEFAULT_ACCOUNT_ID true)
      ChatProvider.telegram =
      some { (getSection c1Config ChatProvider.telegram).getD {} with enabled := some true } ∧
    accountsOf (getSection (setAccountEnabled c1Config ChatProvider.telegram
      DEFAULT_ACCOUNT_ID true) ChatProvider.telegram) = none :=
  (setAccountEnabled_spec c1Config ChatProvider.telegram DEFAULT_ACCOUNT_ID true).2.1
    (by decide) rfl (by decide)

/-- C10 (implicit): for every non-whatsapp provider, applying the
add-account patch for a named (non-default) account sets the
section-level `enabled` flag to true as well, re-enabling a section that
was disabled at section level. -/
theorem applyProviderAccountConfig_named_enables_section (cfg : ClawdbotConfig)
    (provider : ChatProvider) (accountId0 : String) (p : AccountConfigParams)
    (hp : provider ≠ ChatProvider.whatsapp)
    (ha : normalizeAccountId (some accountId0) ≠ DEFAULT_ACCOUNT_ID) :
    (getSection (applyProviderAccountConfig cfg provider accountId0 p) provider).bind
      ProviderSection.enabled = some true := by
  cases provider with
  | whatsapp => exact absurd rfl hp
  | telegram =>
    simp only [applyProviderAccountConfig]
    rw [if_neg ha]
    simp [getSection]
  | discord =>
    simp only [applyProviderAccountConfig]
    rw [if_neg ha]
    simp [getSection]
  | slack =>
    simp only [applyProviderAccountConfig]
    rw [if_neg ha]
    simp [getSection]
  | signal =>
    simp only [applyProviderAccountConfig]
    rw [if_neg ha]
    simp [getSection]
  | imessage =>
    simp only [applyProviderAccountConfig]
    rw [if_neg ha]
    simp [getSection]

/-- C10 witness: adding the named discord account `work` to a document
whose discord section is disabled re-enables the section. -/
theorem applyProviderAccountConfig_named_enables_section_witness :
    (getSection (applyProviderAccountConfig
      { discord := some { enabled := some false, token := some "t0" } }
      ChatProvider.discord "work" { token := some "xyz" }) ChatProvider.discord).bind
      ProviderSection.enabled = some true :=
  applyProviderAccountConfig_named_enables_section _ ChatProvider.discord "work" _
    (by decide) (by decide)

/-- C8: the telegram round-trip.  On any document whose telegram section
has no accounts map: adding the default telegram account with token
`abc` gives `botToken = "abc"` and `enabled = true`; disabling (remove
without delete) flips `enabled` to `false` with the token kept; deleting
(remove with delete) with the accounts map still absent removes the
whole telegram section. -/
theorem telegram_roundtrip (cfg : ClawdbotConfig)
    (hacc : accountsOf cfg.telegram = none) :
    ((applyProviderAccountConfig cfg ChatProvider.telegram ""
        { token := some "abc" }).telegram.bind ProviderSection.botToken = some "abc" ∧
      (applyProviderAccountConfig cfg ChatProvider.telegram ""
        { token := some "abc" }).telegram.bind ProviderSection.enabled = some true) ∧
    ((setAccountEnabled (applyProviderAccountConfig cfg ChatProvider.telegram ""
        { token := some "abc" }) ChatProvider.telegram DEFAULT_ACCOUNT_ID
        false).telegram.bind ProviderSection.enabled = some false ∧
      (setAccountEnabled (applyProviderAccountConfig cfg ChatProvider.telegram ""
        { token := some "abc" }) ChatProvider.telegram DEFAULT_ACCOUNT_ID
        false).telegram.bind ProviderSection.botToken = some "abc") ∧
    (deleteAccount (setAccountEnabled (applyProviderAccountConfig cfg
        ChatProvider.telegram "" { token := some "abc" }) ChatProvider.telegram
        DEFAULT_ACCOUNT_ID false) ChatProvider.telegram
        DEFAULT_ACCOUNT_ID).telegram = none := by
  have hdef : normalizeAccountId (some "") = DEFAULT_ACCOUNT_ID := by decide
  have e1 : applyProviderAccountConfig cfg ChatProvider.telegram ""
      { token := some "abc" } =
      { cfg with telegram := some { cfg.telegram.getD {} with
          enabled := some true
          botToken := some "abc" } } := by
    simp [applyProviderAccountConfig, applyAccountName, hdef, normName, owr,
      jsTruthyStr]
  have e2 : setAccountEnabled (applyProviderAccountConfig cfg ChatProvider.telegram ""
      { token := some "abc" }) ChatProvider.telegram DEFAULT_ACCOUNT_ID false =
      { cfg with telegram := some { cfg.telegram.getD {} with
          enabled := some false
          botToken := some "abc" } } := by
    rw [e1]
    unfold setAccountEnabled
    rw [if_neg (by decide), if_pos ⟨rfl, by simp [accountsOf, getSection,
      accountsOf_none_getD hacc]⟩]
    simp [getSection, setSection]
  have e3 : deleteAccount { cfg with telegram := some { cfg.telegram.getD {} with
      enabled := some false
      botToken := some "abc" } } ChatProvider.telegram DEFAULT_ACCOUNT_ID =
      { cfg with telegram := none } := by
    unfold deleteAccount
    rw [if_neg (by decide), if_neg (by simp)]
    rw [if_pos (by simp [accountsOf, getSection, accountsOf_none_getD hacc])]
    simp [setSection, getSection]
  rw [e2, e3, e1]
  simp

/-- C8 witness: the round-trip starting from the empty document. -/
theorem telegram_roundtrip_witness :
    ((applyProviderAccountConfig {} ChatProvider.telegram ""
        { token := some "abc" }).telegram.bind ProviderSection.botToken = some "abc" ∧
      (applyProviderAccountConfig {} ChatProvider.telegram ""
        { token := some "abc" }).telegram.bind ProviderSection.enabled = some true) ∧
    ((setAccountEnabled (applyProviderAccountConfig {} ChatProvider.telegram ""
        { token := some "abc" }) ChatProvider.telegram DEFAULT_ACCOUNT_ID
        false).telegram.bind ProviderSection.enabled = some false ∧
      (setAccountEnabled (applyProviderAccountConfig {} ChatProvider.telegram ""
        { token := some "abc" }) ChatProvider.telegram DEFAULT_ACCOUNT_ID
        false).telegram.bind ProviderSection.botToken = some "abc") ∧
    (deleteAccount (setAccountEnabled (applyProviderAccountConfig {}
        ChatProvider.telegram "" { token := some "abc" }) ChatProvider.telegram
        DEFAULT_ACCOUNT_ID false) ChatProvider.telegram
        DEFAULT_ACCOUNT_ID).telegram = none :=
  telegram_roundtrip {} rfl

/-- C7: every validation failure of the flag-driven add command — unknown
provider; telegram without token or token file and without use-env;
discord without token and without use-env; slack without both tokens and
without use-env; signal with none of its five locators; or use-env
combined with a non-default account id on telegram, discord or slack —
produces the specific error outcome (reported message, non-zero exit)
and no written document. -/
theorem providersAddCommand_validation (cfg : ClawdbotConfig)
    (opts : ProvidersAddOptions) :
    (normalizeChatProvider opts.provider = none →
      providersAddCommand cfg opts =
        .error ("Unknown provider: " ++ opts.provider.getD "")) ∧
    (normalizeChatProvider opts.provider = some ChatProvider.telegram →
      opts.useEnv = some true → normalizeAccountId opts.account ≠ DEFAULT_ACCOUNT_ID →
      providersAddCommand cfg opts =
        .error "TELEGRAM_BOT_TOKEN can only be used for the default account.") ∧
    (normalizeChatProvider opts.provider = some ChatProvider.telegram →
      opts.useEnv ≠ some true → jsTruthyStr opts.token = false →
      jsTruthyStr opts.tokenFile = false →
      providersAddCommand cfg opts =
        .error "Telegram requires --token or --token-file (or --use-env).") ∧
    (normalizeChatProvider opts.provider = some ChatProvider.discord →
      opts.useEnv = some true → normalizeAccountId opts.account ≠ DEFAULT_ACCOUNT_ID →
      providersAddCommand cfg opts =
        .error "DISCORD_BOT_TOKEN can only be used for the default account.") ∧
    (normalizeChatProvider opts.provider = some ChatProvider.discord →
      opts.useEnv ≠ some true → jsTruthyStr opts.token = false →
      providersAddCommand cfg opts =
        .error "Discord requires --token (or --use-env).") ∧
    (normalizeChatProvider opts.provider = some ChatProvider.slack →
      opts.useEnv = some true → normalizeAccountId opts.account ≠ DEFAULT_ACCOUNT_ID →
      providersAddCommand cfg opts =
        .error "Slack env tokens can only be used for the default account.") ∧
    (normalizeChatProvider opts.provider = some ChatProvider.slack →
      opts.useEnv ≠ some true →
      (jsTruthyStr opts.botToken = false ∨ jsTruthyStr opts.appToken = false) →
      providersAddCommand cfg opts =
        .error "Slack requires --bot-token and --app-token (or --use-env).") ∧
    (normalizeChatProvider opts.provider = some ChatProvider.signal →
      jsTruthyStr opts.signalNumber = false → jsTruthyStr opts.httpUrl = false →
      jsTruthyStr opts.httpHost = false → jsTruthyStr opts.httpPort = false →
      jsTruthyStr opts.cliPath = false →
      providersAddCommand cfg opts =
        .error "Signal requires --signal-number or --http-url/--http-host/--http-port/--cli-path.") := by
  refine ⟨?_, ?_, ?_, ?_, ?_, ?_, ?_, ?_⟩
  · intro hp
    simp [providersAddCommand, hp]
  · intro hp hu ha
    simp [providersAddCommand, hp, hu, ha]
  · intro hp hu ht htf
    simp [providersAddCommand, hp, hu, ht, htf]
  · intro hp hu ha
    simp [providersAddCommand, hp, hu, ha]
  · intro hp hu ht
    simp [providersAddCommand, hp, hu, ht]
  · intro hp hu ha
    simp [providersAddCommand, hp, hu, ha]
  · intro hp hu htt
    simp [providersAddCommand, hp, hu, htt]
  · intro hp h1 h2 h3 h4 h5
    simp [providersAddCommand, hp, h1, h2, h3, h4, h5]

@[simp]
theorem jsTruthyStr_none : jsTruthyStr none = false := rfl

theorem getD_accounts (x : Option ProviderSection) :
    ((x.getD {} : ProviderSection)).accounts = accountsOf x := by
  cases x <;> rfl

/-- The credential/config fields of an account entry: everything except
`enabled` and `name`. -/
def credE (e : AccountEntry) :=
  (e.authDir, e.botToken, e.tokenFile, e.token, e.appToken, e.account,
   e.cliPath, e.dbPath, e.service, e.region, e.httpUrl, e.httpHost, e.httpPort)

/-- The credential/config singleton fields of a provider section:
everything except `enabled`, `name` and `accounts`. -/
def credS (s : ProviderSection) :=
  (s.authDir, s.botToken, s.tokenFile, s.token, s.appToken, s.account,
   s.cliPath, s.dbPath, s.service, s.region, s.httpUrl, s.httpHost, s.httpPort)

theorem credE_lookup_setAcc {a : String} {e : AccountEntry} {l : List (String × AccountEntry)}
    (he : credE e = credE ((lookupAcc a l).getD {})) (k : String) :
    credE ((lookupAcc k (setAcc a e l)).getD {}) = credE ((lookupAcc k l).getD {}) := by
  by_cases hk : k = a
  · subst hk
    rw [lookupAcc_setAcc_self]
    simpa using he
  · rw [lookupAcc_setAcc_ne _ _ hk]

theorem applyAccountName_creds (cfg : ClawdbotConfig) (provider : ChatProvider)
    (a0 : String) (n : Option String) (key : ChatProvider) :
    credS ((getSection (applyAccountName cfg provider a0 n) key).getD {}) =
      credS ((getSection cfg key).getD {}) ∧
    ∀ k, credE (entryAt (applyAccountName cfg provider a0 n) key k) =
      credE (entryAt cfg key k) := by
  unfold applyAccountName
  cases hn : normName n with
  | none => exact ⟨rfl, fun _ => rfl⟩
  | some t =>
    dsimp only
    by_cases hw : provider = ChatProvider.whatsapp
    · subst hw
      rw [if_pos rfl]
      by_cases hk : key = ChatProvider.whatsapp
      · subst hk
        refine ⟨by simp [getSection, credS], fun k => ?_⟩
        simp only [entryAt, getSection, accountsOf, Option.bind_some,
          Option.getD_some]
        exact credE_lookup_setAcc (by simp [credE]) k
      · exact ⟨by cases key <;> first | exact absurd rfl hk | rfl,
          fun k => by cases key <;> first | exact absurd rfl hk | rfl⟩
    · rw [if_neg hw]
      by_cases hd : normalizeAccountId (some a0) = DEFAULT_ACCOUNT_ID
      · rw [if_pos hd]
        by_cases hk : key = provider
        · subst hk
          refine ⟨?_, fun k => ?_⟩
          · rw [getSection_setSection_self]
            simp [credS]
          · simp only [entryAt, getSection_setSection_self]
            simp [accountsOf, getD_accounts]
        · rw [getSection_setSection_ne _ _ hk]
          exact ⟨rfl, fun k => by
            simp only [entryAt, getSection_setSection_ne _ _ hk]⟩
      · rw [if_neg hd]
        by_cases hk : key = provider
        · subst hk
          refine ⟨?_, fun k => ?_⟩
          · rw [getSection_setSection_self]
            simp [credS]
          · simp only [entryAt, getSection_setSection_self]
            simp only [accountsOf, Option.bind_some, Option.getD_some]
            exact credE_lookup_setAcc (by simp [credE]) k
        · rw [getSection_setSection_ne _ _ hk]
          exact ⟨rfl, fun k => by
            simp only [entryAt, getSection_setSection_ne _ _ hk]⟩

/-- C5: merge, not replace.  Applying the add-account patch with only a
display name supplied (every credential field absent from the request)
leaves every credential/config field untouched everywhere in the
document: on each provider section's singleton fields and on each
accounts-map entry (entries may gain `enabled`/`name`, never lose or
change credentials). -/
theorem applyProviderAccountConfig_name_only_merges (cfg : ClawdbotConfig)
    (provider : ChatProvider) (accountId0 : String) (nm : Option String)
    (key : ChatProvider) :
    credS ((getSection (applyProviderAccountConfig cfg provider accountId0
      { name := nm }) key).getD {}) = credS ((getSection cfg key).getD {}) ∧
    ∀ k, credE (entryAt (applyProviderAccountConfig cfg provider accountId0
      { name := nm }) key k) = credE (entryAt cfg key k) := by
  have hA := applyAccountName_creds cfg provider (normalizeAccountId (some accountId0))
    (normName (AccountConfigParams.name { name := nm })) key
  cases provider with
  | whatsapp =>
    simp only [applyProviderAccountConfig]
    refine ⟨Eq.trans (by cases key <;> simp [getSection, credS]) hA.1, fun k => ?_⟩
    refine Eq.trans ?_ (hA.2 k)
    cases key <;>
      first
      | exact credE_lookup_setAcc (by simp [credE]) k
      | rfl
  | telegram =>
    simp only [applyProviderAccountConfig]
    by_cases hd : normalizeAccountId (some accountId0) = DEFAULT_ACCOUNT_ID
    · rw [if_pos hd]
      refine ⟨Eq.trans (by cases key <;> simp [getSection, credS]) hA.1, fun k => ?_⟩
      refine Eq.trans ?_ (hA.2 k)
      cases key <;> simp [entryAt, getSection, accountsOf, getD_accounts]
    · rw [if_neg hd]
      refine ⟨Eq.trans (by cases key <;> simp [getSection, credS]) hA.1, fun k => ?_⟩
      refine Eq.trans ?_ (hA.2 k)
      cases key <;>
        first
        | exact credE_lookup_setAcc (by simp [credE]) k
        | rfl
  | discord =>
    simp only [applyProviderAccountConfig]
    by_cases hd : normalizeAccountId (some accountId0) = DEFAULT_ACCOUNT_ID
    · rw [if_pos hd]
      refine ⟨Eq.trans (by cases key <;> simp [getSection, credS]) hA.1, fun k => ?_⟩
      refine Eq.trans ?_ (hA.2 k)
      cases key <;> simp [entryAt, getSection, accountsOf, getD_accounts]
    · rw [if_neg hd]
      refine ⟨Eq.trans (by cases key <;> simp [getSection, credS]) hA.1, fun k => ?_⟩
      refine Eq.trans ?_ (hA.2 k)
      cases key <;>
        first
        | exact credE_lookup_setAcc (by simp [credE]) k
        | rfl
  | slack =>
    simp only [applyProviderAccountConfig]
    by_cases hd : normalizeAccountId (some accountId0) = DEFAULT_ACCOUNT_ID
    · rw [if_pos hd]
      refine ⟨Eq.trans (by cases key <;> simp [getSection, credS]) hA.1, fun k => ?_⟩
      refine Eq.trans ?_ (hA.2 k)
      cases key <;> simp [entryAt, getSection, accountsOf, getD_accounts]
    · rw [if_neg hd]
      refine ⟨Eq.trans (by cases key <;> simp [getSection, credS]) hA.1, fun k => ?_⟩
      refine Eq.trans ?_ (hA.2 k)
      cases key <;>
        first
        | exact credE_lookup_setAcc (by simp [credE]) k
        | rfl
  | signal =>
    simp only [applyProviderAccountConfig]
    by_cases hd : normalizeAccountId (some accountId0) = DEFAULT_ACCOUNT_ID
    · rw [if_pos hd]
      refine ⟨Eq.trans (by cases key <;> simp [getSection, credS]) hA.1, fun k => ?_⟩
      refine Eq.trans ?_ (hA.2 k)
      cases key <;> simp [entryAt, getSection, accountsOf, getD_accounts]
    · rw [if_neg hd]
      refine ⟨Eq.trans (by cases key <;> simp [getSection, credS]) hA.1, fun k => ?_⟩
      refine Eq.trans ?_ (hA.2 k)
      cases key <;>
        first
        | exact credE_lookup_setAcc (by simp [credE]) k
        | rfl
  | imessage =>
    simp only [applyProviderAccountConfig]
    by_cases hd : normalizeAccountId (some accountId0) = DEFAULT_ACCOUNT_ID
    · rw [if_pos hd]
      refine ⟨Eq.trans (by cases key <;> simp [getSection, credS]) hA.1, fun k => ?_⟩
      refine Eq.trans ?_ (hA.2 k)
      cases key <;> simp [entryAt, getSection, accountsOf, getD_accounts]
    · rw [if_neg hd]
      refine ⟨Eq.trans (by cases key <;> simp [getSection, credS]) hA.1, fun k => ?_⟩
      refine Eq.trans ?_ (hA.2 k)
      cases key <;>
        first
        | exact credE_lookup_setAcc (by simp [credE]) k
        | rfl

theorem normName_some_truthy {x : Option String} {v : String}
    (h : normName x = some v) : jsTruthyStr x = true := by
  match x with
  | none => simp [normName] at h
  | some s =>
    simp only [normName] at h
    by_cases h2 : jsTrim s = ""
    · simp [h2] at h
    · simp [jsTruthyStr]
      rintro rfl
      exact h2 rfl

/-- The accounts-map effect of a name write:
`{...m, [k]: {...m[k], name: v}}`. -/
def nAcc (k v : String) (l : List (String × AccountEntry)) : List (String × AccountEntry) :=
  setAcc k { (lookupAcc k l).getD {} with name := some v } l

/-- The accounts-map effect of an entry merge:
`{...m, [k]: E(m[k])}`. -/
def eAcc (k : String) (E : AccountEntry → AccountEntry) (l : List (String × AccountEntry)) :
    List (String × AccountEntry) :=
  setAcc k (E ((lookupAcc k l).getD {})) l

theorem eAcc_eAcc {k : String} {E : AccountEntry → AccountEntry}
    (hEE : ∀ e, E (E e) = E e) (l : List (String × AccountEntry)) :
    eAcc k E (eAcc k E l) = eAcc k E l := by
  unfold eAcc
  rw [lookupAcc_setAcc_self, Option.getD_some, hEE, setAcc_override]

theorem nAcc_nAcc (k v : String) (l : List (String × AccountEntry)) :
    nAcc k v (nAcc k v l) = nAcc k v l := by
  unfold nAcc
  rw [lookupAcc_setAcc_self, Option.getD_some]
  exact setAcc_lookup_self (by rw [lookupAcc_setAcc_self])

theorem eAcc_nAcc_cycle {a k v : String} {E : AccountEntry → AccountEntry}
    (hEE : ∀ e, E (E e) = E e)
    (hEname : ∀ e, E { e with name := some v } = E e)
    (l : List (String × AccountEntry)) :
    eAcc a E (nAcc k v (eAcc a E (nAcc k v l))) = eAcc a E (nAcc k v l) := by
  by_cases hak : k = a
  · subst hak
    simp only [eAcc, nAcc, lookupAcc_setAcc_self, Option.getD_some,
      setAcc_override, hEname, hEE]
  · have h1 : lookupAcc k (eAcc a E (nAcc k v l)) =
        some { (lookupAcc k l).getD {} with name := some v } := by
      unfold eAcc nAcc
      rw [lookupAcc_setAcc_ne _ _ hak, lookupAcc_setAcc_self]
    have h2 : nAcc k v (eAcc a E (nAcc k v l)) = eAcc a E (nAcc k v l) := by
      rw [nAcc, h1, Option.getD_some]
      exact setAcc_lookup_self (by rw [h1])
    rw [h2, eAcc_eAcc hEE]

/-- The section-level effect of `applyAccountName` for whatsapp: the
name is always written into the accounts map. -/
def nameSecWa (m : Option String) (k : String) (s : ProviderSection) : ProviderSection :=
  match m with
  | none => s
  | some v => { s with accounts := some (nAcc k v (s.accounts.getD [])) }

/-- The section-level effect of `applyAccountName` for the five
non-whatsapp providers: the default account's name is the section-level
singleton, a named account's name goes into the accounts map. -/
def nameSecOther (m : Option String) (k : String) (s : ProviderSection) : ProviderSection :=
  match m with
  | none => s
  | some v =>
    if k = DEFAULT_ACCOUNT_ID then { s with name := some v }
    else { s with accounts := some (nAcc k v (s.accounts.getD [])) }

/-- The section-level effect of the whatsapp credential-merge branch. -/
def entryBranch (a : String) (E : AccountEntry → AccountEntry) (s : ProviderSection) :
    ProviderSection :=
  { s with accounts := some (eAcc a E (s.accounts.getD [])) }

/-- The section-level effect of a non-whatsapp named-account
credential-merge branch: the entry merge plus the section-level
re-enable. -/
def namedG (a : String) (E : AccountEntry → AccountEntry) (s : ProviderSection) :
    ProviderSection :=
  { s with enabled := some true, accounts := some (eAcc a E (s.accounts.getD [])) }

theorem section_eta_accounts (s : ProviderSection) (x : Option (List (String × AccountEntry)))
    (h : s.accounts = x) : { s with accounts := x } = s := by
  subst h
  rfl

theorem setSection_setSection (x : ClawdbotConfig) (P : ChatProvider)
    (s s' : Option ProviderSection) :
    setSection (setSection x P s) P s' = setSection x P s' := by
  cases P <;> rfl

theorem waG_cycle (a k : String) (E : AccountEntry → AccountEntry) (m : Option String)
    (hEE : ∀ e, E (E e) = E e)
    (hEname : ∀ v, m = some v → ∀ e, E { e with name := some v } = E e)
    (s : ProviderSection) :
    entryBranch a E (nameSecWa m k (entryBranch a E (nameSecWa m k s))) =
      entryBranch a E (nameSecWa m k s) := by
  cases m with
  | none => simp [nameSecWa, entryBranch, eAcc_eAcc hEE]
  | some v => simp [nameSecWa, entryBranch, eAcc_nAcc_cycle hEE (hEname v rfl)]

theorem namedG_cycle (a k : String) (E : AccountEntry → AccountEntry) (m : Option String)
    (hEE : ∀ e, E (E e) = E e)
    (hEname : ∀ v, m = some v → ∀ e, E { e with name := some v } = E e)
    (s : ProviderSection) :
    namedG a E (nameSecOther m k (namedG a E (nameSecOther m k s))) =
      namedG a E (nameSecOther m k s) := by
  cases m with
  | none => simp [nameSecOther, namedG, eAcc_eAcc hEE]
  | some v =>
    by_cases hk : k = DEFAULT_ACCOUNT_ID
    · simp [nameSecOther, namedG, hk, eAcc_eAcc hEE]
    · simp [nameSecOther, namedG, hk, eAcc_nAcc_cycle hEE (hEname v rfl)]

theorem W_cycle (W : ProviderSection → ProviderSection) (k : String) (m : Option String)
    (hWW : ∀ s, W (W s) = W s)
    (hWname : ∀ v, m = some v → ∀ s, W { s with name := some v } = W s)
    (hWacc : ∀ s, (W s).accounts = s.accounts)
    (s : ProviderSection) :
    W (nameSecOther m k (W (nameSecOther m k s))) = W (nameSecOther m k s) := by
  cases m with
  | none =>
    simp only [nameSecOther]
    exact hWW _
  | some v =>
    by_cases hk : k = DEFAULT_ACCOUNT_ID
    · simp only [nameSecOther, if_pos hk]
      rw [hWname v rfl, hWW]
    · simp only [nameSecOther, if_neg hk]
      have hX : (W { s with accounts := some (nAcc k v ((s.accounts).getD [])) }).accounts =
          some (nAcc k v ((s.accounts).getD [])) := by rw [hWacc]
      rw [hX, Option.getD_some, nAcc_nAcc, section_eta_accounts _ _ hX, hWW]

/-- The whatsapp entry merge of `applyProviderAccountConfig`. -/
def waE (p : AccountConfigParams) (n : Option String) (e : AccountEntry) : AccountEntry :=
  { e with authDir := owr p.authDir e.authDir, enabled := some true, name := owr n e.name }

/-- The telegram default-account section merge. -/
def tgW (p : AccountConfigParams) (n : Option String) (s : ProviderSection) : ProviderSection :=
  { s with
    enabled := some true
    tokenFile := if p.useEnv then s.tokenFile else owr p.tokenFile s.tokenFile
    botToken := if p.useEnv then s.botToken
      else if jsTruthyStr p.tokenFile then s.botToken else owr p.token s.botToken
    name := owr n s.name }

/-- The telegram named-account entry merge. -/
def tgE (p : AccountConfigParams) (n : Option String) (e : AccountEntry) : AccountEntry :=
  { e with
    enabled := some true
    tokenFile := owr p.tokenFile e.tokenFile
    botToken := if jsTruthyStr p.tokenFile then e.botToken else owr p.token e.botToken
    name := owr n e.name }

/-- The discord default-account section merge. -/
def dcW (p : AccountConfigParams) (n : Option String) (s : ProviderSection) : ProviderSection :=
  { s with
    enabled := some true
    token := if p.useEnv then s.token else owr p.token s.token
    name := owr n s.name }

/-- The discord named-account entry merge. -/
def dcE (p : AccountConfigParams) (n : Option String) (e : AccountEntry) : AccountEntry :=
  { e with
    enabled := some true
    token := owr p.token e.token
    name := owr n e.name }

/-- The slack default-account section merge. -/
def slW (p : AccountConfigParams) (n : Option String) (s : ProviderSection) : ProviderSection :=
  { s with
    enabled := some true
    botToken := if p.useEnv then s.botToken else owr p.botToken s.botToken
    appToken := if p.useEnv then s.appToken else owr p.appToken s.appToken
    name := owr n s.name }

/-- The slack named-account entry merge. -/
def slE (p : AccountConfigParams) (n : Option String) (e : AccountEntry) : AccountEntry :=
  { e with
    enabled := some true
    botToken := owr p.botToken e.botToken
    appToken := owr p.appToken e.appToken
    name := owr n e.name }

/-- The signal default-account section merge. -/
def sgW (p : AccountConfigParams) (n : Option String) (s : ProviderSection) : ProviderSection :=
  { s with
    enabled := some true
    account := owr p.signalNumber s.account
    cliPath := owr p.cliPath s.cliPath
    httpUrl := owr p.httpUrl s.httpUrl
    httpHost := owr p.httpHost s.httpHost
    httpPort := owrNum p.httpPort s.httpPort
    name := owr n s.name }

/-- The signal named-account entry merge. -/
def sgE (p : AccountConfigParams) (n : Option String) (e : AccountEntry) : AccountEntry :=
  { e with
    enabled := some true
    account := owr p.signalNumber e.account
    cliPath := owr p.cliPath e.cliPath
    httpUrl := owr p.httpUrl e.httpUrl
    httpHost := owr p.httpHost e.httpHost
    httpPort := owrNum p.httpPort e.httpPort
    name := owr n e.name }

/-- The imessage default-account section merge. -/
def imW (p : AccountConfigParams) (n : Option String) (s : ProviderSection) : ProviderSection :=
  { s with
    enabled := some true
    cliPath := owr p.cliPath s.cliPath
    dbPath := owr p.dbPath s.dbPath
    service := owr p.service s.service
    region := owr p.region s.region
    name := owr n s.name }

/-- The imessage named-account entry merge. -/
def imE (p : AccountConfigParams) (n : Option String) (e : AccountEntry) : AccountEntry :=
  { e with
    enabled := some true
    cliPath := owr p.cliPath e.cliPath
    dbPath := owr p.dbPath e.dbPath
    service := owr p.service e.service
    region := owr p.region e.region
    name := owr n e.name }

/-- C7 witness: slack add with use-env and a non-default account id is
rejected with the specific message (and hence no write). -/
theorem providersAddCommand_validation_witness :
    providersAddCommand {}
      { provider := some "slack", account := some "work", useEnv := some true } =
      .error "Slack env tokens can only be used for the default account." :=
  (providersAddCommand_validation {}
    { provider := some "slack", account := some "work", useEnv := some true }).2.2.2.2.2.1
    (by decide) rfl (by decide)


theorem apply_whatsapp_shape (x : ClawdbotConfig) (a0 : String) (p : AccountConfigParams) :
    applyProviderAccountConfig x ChatProvider.whatsapp a0 p =
    setSection x ChatProvider.whatsapp (some (entryBranch (normalizeAccountId (some a0))
      (waE p (normName p.name))
      (nameSecWa (normName (normName p.name))
        (normalizeAccountId (some (normalizeAccountId (some a0))))
        ((getSection x ChatProvider.whatsapp).getD {})))) := by
  simp only [applyProviderAccountConfig, applyAccountName, getSection, setSection]
  cases hm : normName (normName p.name) with
  | none =>
    cases hx : x.whatsapp <;> rfl
  | some v =>
    cases hx : x.whatsapp <;> rfl

set_option maxHeartbeats 2000000 in
theorem apply_telegram_shape (x : ClawdbotConfig) (a0 : String) (p : AccountConfigParams) :
    applyProviderAccountConfig x ChatProvider.telegram a0 p =
    setSection x ChatProvider.telegram (some (
      if normalizeAccountId (some a0) = DEFAULT_ACCOUNT_ID then
        tgW p (normName p.name) (nameSecOther (normName (normName p.name))
          (normalizeAccountId (some (normalizeAccountId (some a0))))
          ((getSection x ChatProvider.telegram).getD {}))
      else
        namedG (normalizeAccountId (some a0)) (tgE p (normName p.name))
          (nameSecOther (normName (normName p.name))
            (normalizeAccountId (some (normalizeAccountId (some a0))))
            ((getSection x ChatProvider.telegram).getD {})))) := by
  simp only [applyProviderAccountConfig, applyAccountName, getSection, setSection]
  cases hm : normName (normName p.name) with
  | none =>
    by_cases hd : normalizeAccountId (some a0) = DEFAULT_ACCOUNT_ID
    · simp only [if_pos hd]
      cases hx : x.telegram <;> rfl
    · simp only [if_neg hd]
      cases hx : x.telegram <;> rfl
  | some v =>
    by_cases ha2 : normalizeAccountId (some (normalizeAccountId (some a0))) = DEFAULT_ACCOUNT_ID
    · by_cases hd : normalizeAccountId (some a0) = DEFAULT_ACCOUNT_ID
      · simp only [nameSecOther, if_pos hd, if_pos ha2]
        cases hx : x.telegram <;> rfl
      · simp only [nameSecOther, if_neg hd, if_pos ha2]
        cases hx : x.telegram <;> rfl
    · by_cases hd : normalizeAccountId (some a0) = DEFAULT_ACCOUNT_ID
      · simp only [nameSecOther, if_pos hd, if_neg ha2]
        cases hx : x.telegram <;> rfl
      · simp only [nameSecOther, if_neg hd, if_neg ha2]
        cases hx : x.telegram <;> rfl

set_option maxHeartbeats 2000000 in
theorem apply_discord_shape (x : ClawdbotConfig) (a0 : String) (p : AccountConfigParams) :
    applyProviderAccountConfig x ChatProvider.discord a0 p =
    setSection x ChatProvider.discord (some (
      if normalizeAccountId (some a0) = DEFAULT_ACCOUNT_ID then
        dcW p (normName p.name) (nameSecOther (normName (normName p.name))
          (normalizeAccountId (some (normalizeAccountId (some a0))))
          ((getSection x ChatProvider.discord).getD {}))
      else
        namedG (normalizeAccountId (some a0)) (dcE p (normName p.name))
          (nameSecOther (normName (normName p.name))
            (normalizeAccountId (some (normalizeAccountId (some a0))))
            ((getSection x ChatProvider.discord).getD {})))) := by
  simp only [applyProviderAccountConfig, applyAccountName, getSection, setSection]
  cases hm : normName (normName p.name) with
  | none =>
    by_cases hd : normalizeAccountId (some a0) = DEFAULT_ACCOUNT_ID
    · simp only [if_pos hd]
      cases hx : x.discord <;> rfl
    · simp only [if_neg hd]
      cases hx : x.discord <;> rfl
  | some v =>
    by_cases ha2 : normalizeAccountId (some (normalizeAccountId (some a0))) = DEFAULT_ACCOUNT_ID
    · by_cases hd : normalizeAccountId (some a0) = DEFAULT_ACCOUNT_ID
      · simp only [nameSecOther, if_pos hd, if_pos ha2]
        cases hx : x.discord <;> rfl
      · simp only [nameSecOther, if_neg hd, if_pos ha2]
        cases hx : x.discord <;> rfl
    · by_cases hd : normalizeAccountId (some a0) = DEFAULT_ACCOUNT_ID
      · simp only [nameSecOther, if_pos hd, if_neg ha2]
        cases hx : x.discord <;> rfl
      · simp only [nameSecOther, if_neg hd, if_neg ha2]
        cases hx : x.discord <;> rfl

set_option maxHeartbeats 2000000 in
theorem apply_slack_shape (x : ClawdbotConfig) (a0 : String) (p : AccountConfigParams) :
    applyProviderAccountConfig x ChatProvider.slack a0 p =
    setSection x ChatProvider.slack (some (
      if normalizeAccountId (some a0) = DEFAULT_ACCOUNT_ID then
        slW p (normName p.name) (nameSecOther (normName (normName p.name))
          (normalizeAccountId (some (normalizeAccountId (some a0))))
          ((getSection x ChatProvider.slack).getD {}))
      else
        namedG (normalizeAccountId (some a0)) (slE p (normName p.name))
          (nameSecOther (normName (normName p.name))
            (normalizeAccountId (some (normalizeAccountId (some a0))))
            ((getSection x ChatProvider.slack).getD {})))) := by
  simp only [applyProviderAccountConfig, applyAccountName, getSection, setSection]
  cases hm : normName (normName p.name) with
  | none =>
    by_cases hd : normalizeAccountId (some a0) = DEFAULT_ACCOUNT_ID
    · simp only [if_pos hd]
      cases hx : x.slack <;> rfl
    · simp only [if_neg hd]
      cases hx : x.slack <;> rfl
  | some v =>
    by_cases ha2 : normalizeAccountId (some (normalizeAccountId (some a0))) = DEFAULT_ACCOUNT_ID
    · by_cases hd : normalizeAccountId (some a0) = DEFAULT_ACCOUNT_ID
      · simp only [nameSecOther, if_pos hd, if_pos ha2]
        cases hx : x.slack <;> rfl
      · simp only [nameSecOther, if_neg hd, if_pos ha2]
        cases hx : x.slack <;> rfl
    · by_cases hd : normalizeAccountId (some a0) = DEFAULT_ACCOUNT_ID
      · simp only [nameSecOther, if_pos hd, if_neg ha2]
        cases hx : x.slack <;> rfl
      · simp only [nameSecOther, if_neg hd, if_neg ha2]
        cases hx : x.slack <;> rfl

set_option maxHeartbeats 2000000 in
theorem apply_signal_shape (x : ClawdbotConfig) (a0 : String) (p : AccountConfigParams) :
    applyProviderAccountConfig x ChatProvider.signal a0 p =
    setSection x ChatProvider.signal (some (
      if normalizeAccountId (some a0) = DEFAULT_ACCOUNT_ID then
        sgW p (normName p.name) (nameSecOther (normName (normName p.name))
          (normalizeAccountId (some (normalizeAccountId (some a0))))
          ((getSection x ChatProvider.signal).getD {}))
      else
        namedG (normalizeAccountId (some a0)) (sgE p (normName p.name))
          (nameSecOther (normName (normName p.name))
            (normalizeAccountId (some (normalizeAccountId (some a0))))
            ((getSection x ChatProvider.signal).getD {})))) := by
  simp only [applyProviderAccountConfig, applyAccountName, getSection, setSection]
  cases hm : normName (normName p.name) with
  | none =>
    by_cases hd : normalizeAccountId (some a0) = DEFAULT_ACCOUNT_ID
    · simp only [if_pos hd]
      cases hx : x.signal <;> rfl
    · simp only [if_neg hd]
      cases hx : x.signal <;> rfl
  | some v =>
    by_cases ha2 : normalizeAccountId (some (normalizeAccountId (some a0))) = DEFAULT_ACCOUNT_ID
    · by_cases hd : normalizeAccountId (some a0) = DEFAULT_ACCOUNT_ID
      · simp only [nameSecOther, if_pos hd, if_pos ha2]
        cases hx : x.signal <;> rfl
      · simp only [nameSecOther, if_neg hd, if_pos ha2]
        cases hx : x.signal <;> rfl
    · by_cases hd : normalizeAccountId (some a0) = DEFAULT_ACCOUNT_ID
      · simp only [nameSecOther, if_pos hd, if_neg ha2]
        cases hx : x.signal <;> rfl
      · simp only [nameSecOther, if_neg hd, if_neg ha2]
        cases hx : x.signal <;> rfl

set_option maxHeartbeats 2000000 in
theorem apply_imessage_shape (x : ClawdbotConfig) (a0 : String) (p : AccountConfigParams) :
    applyProviderAccountConfig x ChatProvider.imessage a0 p =
    setSection x ChatProvider.imessage (some (
      if normalizeAccountId (some a0) = DEFAULT_ACCOUNT_ID then
        imW p (normName p.name) (nameSecOther (normName (normName p.name))
          (normalizeAccountId (some (normalizeAccountId (some a0))))
          ((getSection x ChatProvider.imessage).getD {}))
      else
        namedG (normalizeAccountId (some a0)) (imE p (normName p.name))
          (nameSecOther (normName (normName p.name))
            (normalizeAccountId (some (normalizeAccountId (some a0))))
            ((getSection x ChatProvider.imessage).getD {})))) := by
  simp only [applyProviderAccountConfig, applyAccountName, getSection, setSection]
  cases hm : normName (normName p.name) with
  | none =>
    by_cases hd : normalizeAccountId (some a0) = DEFAULT_ACCOUNT_ID
    · simp only [if_pos hd]
      cases hx : x.imessage <;> rfl
    · simp only [if_neg hd]
      cases hx : x.imessage <;> rfl
  | some v =>
    by_cases ha2 : normalizeAccountId (some (normalizeAccountId (some a0))) = DEFAULT_ACCOUNT_ID
    · by_cases hd : normalizeAccountId (some a0) = DEFAULT_ACCOUNT_ID
      · simp only [nameSecOther, if_pos hd, if_pos ha2]
        cases hx : x.imessage <;> rfl
      · simp only [nameSecOther, if_neg hd, if_pos ha2]
        cases hx : x.imessage <;> rfl
    · by_cases hd : normalizeAccountId (some a0) = DEFAULT_ACCOUNT_ID
      · simp only [nameSecOther, if_pos hd, if_neg ha2]
        cases hx : x.imessage <;> rfl
      · simp only [nameSecOther, if_neg hd, if_neg ha2]
        cases hx : x.imessage <;> rfl


theorem waE_absorb (p : AccountConfigParams) (n : Option String) :
    ∀ e, waE p n (waE p n e) = waE p n e := by
  intro e
  simp [waE]

theorem waE_name (p : AccountConfigParams) (n : Option String)
    (hn : jsTruthyStr n = true) (e : AccountEntry) (v : String) :
    waE p n { e with name := some v } = waE p n e := by
  simp [waE, owr_of_truthy hn]

theorem tgW_absorb (p : AccountConfigParams) (n : Option String) :
    ∀ s, tgW p n (tgW p n s) = tgW p n s := by
  intro s
  by_cases hu : p.useEnv = true <;> by_cases htf : jsTruthyStr p.tokenFile = true <;>
    simp [tgW, hu, htf]

theorem tgW_name (p : AccountConfigParams) (n : Option String)
    (hn : jsTruthyStr n = true) (s : ProviderSection) (v : String) :
    tgW p n { s with name := some v } = tgW p n s := by
  simp [tgW, owr_of_truthy hn]

theorem tgE_absorb (p : AccountConfigParams) (n : Option String) :
    ∀ e, tgE p n (tgE p n e) = tgE p n e := by
  intro e
  by_cases htf : jsTruthyStr p.tokenFile = true <;> simp [tgE, htf]

theorem tgE_name (p : AccountConfigParams) (n : Option String)
    (hn : jsTruthyStr n = true) (e : AccountEntry) (v : String) :
    tgE p n { e with name := some v } = tgE p n e := by
  simp [tgE, owr_of_truthy hn]

theorem dcW_absorb (p : AccountConfigParams) (n : Option String) :
    ∀ s, dcW p n (dcW p n s) = dcW p n s := by
  intro s
  by_cases hu : p.useEnv = true <;> simp [dcW, hu]

theorem dcW_name (p : AccountConfigParams) (n : Option String)
    (hn : jsTruthyStr n = true) (s : ProviderSection) (v : String) :
    dcW p n { s with name := some v } = dcW p n s := by
  simp [dcW, owr_of_truthy hn]

theorem dcE_absorb (p : AccountConfigParams) (n : Option String) :
    ∀ e, dcE p n (dcE p n e) = dcE p n e := by
  intro e
  simp [dcE]

theorem dcE_name (p : AccountConfigParams) (n : Option String)
    (hn : jsTruthyStr n = true) (e : AccountEntry) (v : String) :
    dcE p n { e with name := some v } = dcE p n e := by
  simp [dcE, owr_of_truthy hn]

theorem slW_absorb (p : AccountConfigParams) (n : Option String) :
    ∀ s, slW p n (slW p n s) = slW p n s := by
  intro s
  by_cases hu : p.useEnv = true <;> simp [slW, hu]

theorem slW_name (p : AccountConfigParams) (n : Option String)
    (hn : jsTruthyStr n = true) (s : ProviderSection) (v : String) :
    slW p n { s with name := some v } = slW p n s := by
  simp [slW, owr_of_truthy hn]

theorem slE_absorb (p : AccountConfigParams) (n : Option String) :
    ∀ e, slE p n (slE p n e) = slE p n e := by
  intro e
  simp [slE]

theorem slE_name (p : AccountConfigParams) (n : Option String)
    (hn : jsTruthyStr n = true) (e : AccountEntry) (v : String) :
    slE p n { e with name := some v } = slE p n e := by
  simp [slE, owr_of_truthy hn]

theorem sgW_absorb (p : AccountConfigParams) (n : Option String) :
    ∀ s, sgW p n (sgW p n s) = sgW p n s := by
  intro s
  simp [sgW]

theorem sgW_name (p : AccountConfigParams) (n : Option String)
    (hn : jsTruthyStr n = true) (s : ProviderSection) (v : String) :
    sgW p n { s with name := some v } = sgW p n s := by
  simp [sgW, owr_of_truthy hn]

theorem sgE_absorb (p : AccountConfigParams) (n : Option String) :
    ∀ e, sgE p n (sgE p n e) = sgE p n e := by
  intro e
  simp [sgE]

theorem sgE_name (p : AccountConfigParams) (n : Option String)
    (hn : jsTruthyStr n = true) (e : AccountEntry) (v : String) :
    sgE p n { e with name := some v } = sgE p n e := by
  simp [sgE, owr_of_truthy hn]

theorem imW_absorb (p : AccountConfigParams) (n : Option String) :
    ∀ s, imW p n (imW p n s) = imW p n s := by
  intro s
  simp [imW]

theorem imW_name (p : AccountConfigParams) (n : Option String)
    (hn : jsTruthyStr n = true) (s : ProviderSection) (v : String) :
    imW p n { s with name := some v } = imW p n s := by
  simp [imW, owr_of_truthy hn]

theorem imE_absorb (p : AccountConfigParams) (n : Option String) :
    ∀ e, imE p n (imE p n e) = imE p n e := by
  intro e
  simp [imE]

theorem imE_name (p : AccountConfigParams) (n : Option String)
    (hn : jsTruthyStr n = true) (e : AccountEntry) (v : String) :
    imE p n { e with name := some v } = imE p n e := by
  simp [imE, owr_of_truthy hn]

set_option maxHeartbeats 2000000 in
/-- C4: idempotence of add.  For every document, provider, account id
and combination of supplied optional fields, applying the add-account
patch twice with identical parameters yields the same document as
applying it once. -/
theorem applyProviderAccountConfig_idem (cfg : ClawdbotConfig) (provider : ChatProvider)
    (accountId0 : String) (p : AccountConfigParams) :
    applyProviderAccountConfig (applyProviderAccountConfig cfg provider accountId0 p)
      provider accountId0 p = applyProviderAccountConfig cfg provider accountId0 p := by
  cases provider with
  | whatsapp =>
    rw [apply_whatsapp_shape, apply_whatsapp_shape, getSection_setSection_self,
      Option.getD_some, setSection_setSection]
    exact congrArg (fun s => setSection cfg ChatProvider.whatsapp (some s))
      (waG_cycle _ _ _ _ (waE_absorb p _)
        (fun v hv e => waE_name p _ (normName_some_truthy hv) e v) _)
  | telegram =>
    by_cases hd : normalizeAccountId (some accountId0) = DEFAULT_ACCOUNT_ID
    · rw [apply_telegram_shape, apply_telegram_shape]
      simp only [if_pos hd]
      rw [getSection_setSection_self, Option.getD_some, setSection_setSection]
      exact congrArg (fun s => setSection cfg ChatProvider.telegram (some s))
        (W_cycle (tgW p (normName p.name)) _ _ (tgW_absorb p _)
          (fun v hv s => tgW_name p _ (normName_some_truthy hv) s v) (fun _ => rfl) _)
    · rw [apply_telegram_shape, apply_telegram_shape]
      simp only [if_neg hd]
      rw [getSection_setSection_self, Option.getD_some, setSection_setSection]
      exact congrArg (fun s => setSection cfg ChatProvider.telegram (some s))
        (namedG_cycle _ _ _ _ (tgE_absorb p _)
          (fun v hv e => tgE_name p _ (normName_some_truthy hv) e v) _)
  | discord =>
    by_cases hd : normalizeAccountId (some accountId0) = DEFAULT_ACCOUNT_ID
    · rw [apply_discord_shape, apply_discord_shape]
      simp only [if_pos hd]
      rw [getSection_setSection_self, Option.getD_some, setSection_setSection]
      exact congrArg (fun s => setSection cfg ChatProvider.discord (some s))
        (W_cycle (dcW p (normName p.name)) _ _ (dcW_absorb p _)
          (fun v hv s => dcW_name p _ (normName_some_truthy hv) s v) (fun _ => rfl) _)
    · rw [apply_discord_shape, apply_discord_shape]
      simp only [if_neg hd]
      rw [getSection_setSection_self, Option.getD_some, setSection_setSection]
      exact congrArg (fun s => setSection cfg ChatProvider.discord (some s))
        (namedG_cycle _ _ _ _ (dcE_absorb p _)
          (fun v hv e => dcE_name p _ (normName_some_truthy hv) e v) _)
  | slack =>
    by_cases hd : normalizeAccountId (some accountId0) = DEFAULT_ACCOUNT_ID
    · rw [apply_slack_shape, apply_slack_shape]
      simp only [if_pos hd]
      rw [getSection_setSection_self, Option.getD_some, setSection_setSection]
      exact congrArg (fun s => setSection cfg ChatProvider.slack (some s))
        (W_cycle (slW p (normName p.name)) _ _ (slW_absorb p _)
          (fun v hv s => slW_name p _ (normName_some_truthy hv) s v) (fun _ => rfl) _)
    · rw [apply_slack_shape, apply_slack_shape]
      simp only [if_neg hd]
      rw [getSection_setSection_self, Option.getD_some, setSection_setSection]
      exact congrArg (fun s => setSection cfg ChatProvider.slack (some s))
        (namedG_cycle _ _ _ _ (slE_absorb p _)
          (fun v hv e => slE_name p _ (normName_some_truthy hv) e v) _)
  | signal =>
    by_cases hd : normalizeAccountId (some accountId0) = DEFAULT_ACCOUNT_ID
    · rw [apply_signal_shape, apply_signal_shape]
      simp only [if_pos hd]
      rw [getSection_setSection_self, Option.getD_some, setSection_setSection]
      exact congrArg (fun s => setSection cfg ChatProvider.signal (some s))
        (W_cycle (sgW p (normName p.name)) _ _ (sgW_absorb p _)
          (fun v hv s => sgW_name p _ (normName_some_truthy hv) s v) (fun _ => rfl) _)
    · rw [apply_signal_shape, apply_signal_shape]
      simp only [if_neg hd]
      rw [getSection_setSection_self, Option.getD_some, setSection_setSection]
      exact congrArg (fun s => setSection cfg ChatProvider.signal (some s))
        (namedG_cycle _ _ _ _ (sgE_absorb p _)
          (fun v hv e => sgE_name p _ (normName_some_truthy hv) e v) _)
  | imessage =>
    by_cases hd : normalizeAccountId (some accountId0) = DEFAULT_ACCOUNT_ID
    · rw [apply_imessage_shape, apply_imessage_shape]
      simp only [if_pos hd]
      rw [getSection_setSection_self, Option.getD_some, setSection_setSection]
      exact congrArg (fun s => setSection cfg ChatProvider.imessage (some s))
        (W_cycle (imW p (normName p.name)) _ _ (imW_absorb p _)
          (fun v hv s => imW_name p _ (normName_some_truthy hv) s v) (fun _ => rfl) _)
    · rw [apply_imessage_shape, apply_imessage_shape]
      simp only [if_neg hd]
      rw [getSection_setSection_self, Option.getD_some, setSection_setSection]
      exact congrArg (fun s => setSection cfg ChatProvider.imessage (some s))
        (namedG_cycle _ _ _ _ (imE_absorb p _)
          (fun v hv e => imE_name p _ (normName_some_truthy hv) e v) _)

end Providers
